import Mathlib

/-!
Verification development for the document-indexing coordination worker
(`worker/document_indexing_worker.py`).

The worker's data model and operations are shallowly embedded: the durable
store is an association list from document keys to document records, and the
points at which external collaborators can raise exceptions (the store
session inside `try_acquire_lock`, the indexer trigger, the search call
inside `check_chunks_exist`, the store session inside
`update_document_status`) are recorded in an explicit environment.  Queue
receiver operations (`complete_message`, `abandon_message`,
`dead_letter_message`) are modelled as infallible; the dispatcher's
disposition of a message is returned as an explicit value.
-/

namespace IndexWorker

/-- `app/models/document.py`: `DocumentStatus` enumeration. -/
inductive DocumentStatus where
  | PENDING
  | PROCESSING
  | INDEXED
  | FAILED
deriving DecidableEq, Repr

/-- A JSON scalar value, as produced by `json.loads` for the payload fields
the worker reads.  Document ids are integers in practice but the worker
reads `data["document_id"]` untyped, so keys carry the value as-is. -/
inductive JVal where
  | num (n : Nat)
  | str (s : String)
deriving DecidableEq, Repr

/-- The result of `json.loads(str(message))` on a queue message body:
`notJson` when decoding raises `JSONDecodeError`, `nonObj` when the body is
valid JSON but not an object (so subscripting raises `TypeError`), and
`obj` for a JSON object given as an association list of its fields. -/
inductive Msg where
  | notJson
  | nonObj (v : JVal)
  | obj (fields : List (String × JVal))
deriving DecidableEq, Repr

/-- `app/models/document.py`: the `Document` row.  Timestamps are `Nat`.
The row's primary key is the key of the store association list, not a
field of the record. -/
structure Doc where
  folder_id : Nat
  filename : String
  original_filename : String
  blob_url : String
  processed_blob_url : Option String
  status : DocumentStatus
  file_size : Option Nat
  content_type : String
  doc_metadata : Option String
  error_message : Option String
  processing_started_at : Option Nat
  processing_lock_id : Option String
  created_at : Nat
  updated_at : Nat
deriving DecidableEq, Repr

/-- The durable store: document rows keyed by id. -/
abbrev DB := List (JVal × Doc)

/-- `SELECT ... WHERE Document.id == document_id`, `scalar_one_or_none`. -/
def dbFind : DB → JVal → Option Doc
  | [], _ => none
  | p :: tl, id => if p.1 == id then some p.2 else dbFind tl id

/-- Committing a mutated row back to the store. -/
def dbSet : DB → JVal → Doc → DB
  | [], _, _ => []
  | p :: tl, id, doc => (if p.1 == id then (p.1, doc) else p) :: dbSet tl id doc

/-- Environment: the behaviour of the external collaborators during one
`process_message` call.  Boolean fields mark the points where an external
call raises an exception; `chunks k` tells whether the search index holds
chunks for the document at poll attempt `k`; `now` / `lockId` model
`datetime.utcnow()` / `uuid.uuid4()` at claim time and `updateNow` the
clock at status-update time. -/
structure Env where
  lockDbRaises : Bool
  now : Nat
  lockId : String
  triggerRaises : Bool
  searchRaises : Nat → Bool
  chunks : Nat → Bool
  updateDbRaises : Bool
  updateNow : Nat

/-- `DocumentIndexingWorker.max_retries`. -/
def max_retries : Nat := 12

/-- `DocumentIndexingWorker.retry_delay` (seconds between poll attempts). -/
def retry_delay : Nat := 10

/-- `try_acquire_lock`: reads the row with a row-level lock; missing row or
non-PENDING status yield `false` with the store unchanged; a PENDING row is
flipped to PROCESSING with `processing_started_at` and a fresh
`processing_lock_id`, and committed.  Any exception in the session is
caught and the call returns `false`. -/
def try_acquire_lock (env : Env) (db : DB) (document_id : JVal) : Bool × DB :=
  if env.lockDbRaises then
    (false, db)
  else
    match dbFind db document_id with
    | none => (false, db)
    | some document =>
      if document.status ≠ DocumentStatus.PENDING then
        (false, db)
      else
        (true, dbSet db document_id
          { document with
              status := DocumentStatus.PROCESSING
              processing_started_at := some env.now
              processing_lock_id := some env.lockId })

/-- `check_chunks_exist` at poll attempt `attempt`: searches the index for
chunks of the document; any exception from the search call is caught and
the check returns `false`. -/
def check_chunks_exist (env : Env) (attempt : Nat) : Bool :=
  if env.searchRaises attempt then false else env.chunks attempt

/-- Outcome of `wait_for_indexing`: whether chunks were found, how many
existence checks ran, and how many `retry_delay` sleeps separated them. -/
structure WaitResult where
  found : Bool
  checks : Nat
  sleeps : Nat
deriving DecidableEq, Repr

/-- The body of `wait_for_indexing`'s `for attempt in range(1, max_retries
+ 1)` loop, over the list of remaining attempt numbers: returns on the
first positive check; after a negative check it sleeps `retry_delay`
seconds only when `attempt < maxR` (no sleep after the last attempt). -/
def wait_go (env : Env) (maxR : Nat) : List Nat → WaitResult
  | [] => { found := false, checks := 0, sleeps := 0 }
  | attempt :: rest =>
    if check_chunks_exist env attempt then
      { found := true, checks := 1, sleeps := 0 }
    else
      let r := wait_go env maxR rest
      { found := r.found
        checks := r.checks + 1
        sleeps := r.sleeps + (if attempt < maxR then 1 else 0) }

/-- `wait_for_indexing` with the attempt ceiling as a parameter (the
spec's `wait_for_artifacts(document_id, max_attempts, delay)`): polls
`check_chunks_exist` at attempts `1, …, maxR`. -/
def wait_for_indexing_upto (env : Env) (maxR : Nat) : WaitResult :=
  wait_go env maxR (List.range' 1 maxR)

/-- `wait_for_indexing`: polls `check_chunks_exist` up to `max_retries`
times, `retry_delay` seconds apart. -/
def wait_for_indexing (env : Env) : WaitResult :=
  wait_for_indexing_upto env max_retries

/-- Python truthiness of the `error_message` argument (`if error_message:`):
`None` and the empty string are falsy. -/
def pyTruthy : Option String → Bool
  | none => false
  | some s => !(s == "")

/-- `update_document_status`: reads the row, sets `status` and
`updated_at`, sets `error_message` only when the argument is truthy, and
commits.  A missing row is logged and skipped; any exception in the
session is caught and logged.  In every case the call returns normally,
reporting nothing to the caller. -/
def update_document_status (env : Env) (db : DB) (document_id : JVal)
    (status : DocumentStatus) (error_message : Option String) : DB :=
  if env.updateDbRaises then
    db
  else
    match dbFind db document_id with
    | none => db
    | some document =>
      let document := { document with status := status, updated_at := env.updateNow }
      let document :=
        if pyTruthy error_message then { document with error_message := error_message }
        else document
      dbSet db document_id document

/-- The row as committed by a successful `try_acquire_lock`: status
PROCESSING, `processing_started_at` and `processing_lock_id` stamped. -/
def claimDoc (env : Env) (doc : Doc) : Doc :=
  { doc with
      status := DocumentStatus.PROCESSING
      processing_started_at := some env.now
      processing_lock_id := some env.lockId }

/-- The dispatcher's final disposition of a message.  `unhandled` records
that `process_message` itself raised out of its `except` block, so none of
`complete_message`, `abandon_message`, `dead_letter_message` ran (the
dispatch loop survives because tasks are gathered with
`return_exceptions=True`). -/
inductive Disposition where
  | ack
  | deadLetter (reason : String) (description : String)
  | abandoned
  | unhandled
deriving DecidableEq, Repr

/-- Everything observable about one `process_message` call: the store
afterwards, the message disposition, and how many calls were made to the
indexer trigger, the search index, and the store (lock session and
status-update session separately). -/
structure PMResult where
  db : DB
  disp : Disposition
  triggerCalls : Nat
  searchCalls : Nat
  lockStoreCalls : Nat
  updateStoreCalls : Nat
deriving DecidableEq, Repr

/-- `data[k]` on a parsed JSON object: `none` models the `KeyError`. -/
def jget (fields : List (String × JVal)) (k : String) : Option JVal :=
  match fields.find? (fun p => p.1 == k) with
  | some p => some p.2
  | none => none

/-- Looks up the four required payload fields, in the order the source
reads them; `none` models the `KeyError` on the first missing field. -/
def parse_fields (fields : List (String × JVal)) :
    Option (JVal × JVal × JVal × JVal) :=
  match jget fields "document_id", jget fields "blob_name",
        jget fields "folder_id", jget fields "user_id" with
  | some d, some b, some f, some u => some (d, b, f, u)
  | _, _, _, _ => none

/-- `process_message`: parse the payload, try to claim the document,
trigger the indexer, poll for completion, resolve the terminal status and
dispose of the message.  Faithful to the source's exception flow:

* `json.loads` failure or a non-object body leaves `data` unbound or
  unsubscriptable, so the `except` block's reference to `data.get` raises
  (`NameError` / `AttributeError`) before `abandon_message` runs →
  `unhandled`;
* a missing required field raises `KeyError` with `data` bound, so the
  `except` block abandons the message → `abandoned`;
* a failed claim (including a store exception caught inside
  `try_acquire_lock`) → `complete_message`;
* an exception from the indexer trigger reaches the `except` block →
  `abandoned`;
* poll success → status INDEXED (best effort), `complete_message`;
* poll exhaustion → status FAILED (best effort), `dead_letter_message`. -/
def process_message (env : Env) (db : DB) (msg : Msg) : PMResult :=
  match msg with
  | Msg.notJson =>
    { db := db, disp := Disposition.unhandled
      triggerCalls := 0, searchCalls := 0, lockStoreCalls := 0, updateStoreCalls := 0 }
  | Msg.nonObj _ =>
    { db := db, disp := Disposition.unhandled
      triggerCalls := 0, searchCalls := 0, lockStoreCalls := 0, updateStoreCalls := 0 }
  | Msg.obj fields =>
    match parse_fields fields with
    | none =>
      { db := db, disp := Disposition.abandoned
        triggerCalls := 0, searchCalls := 0, lockStoreCalls := 0, updateStoreCalls := 0 }
    | some (document_id, _blob_name, _folder_id, _user_id) =>
      let lockRes := try_acquire_lock env db document_id
      if !lockRes.1 then
        { db := lockRes.2, disp := Disposition.ack
          triggerCalls := 0, searchCalls := 0, lockStoreCalls := 1, updateStoreCalls := 0 }
      else if env.triggerRaises then
        { db := lockRes.2, disp := Disposition.abandoned
          triggerCalls := 1, searchCalls := 0, lockStoreCalls := 1, updateStoreCalls := 0 }
      else
        let w := wait_for_indexing env
        if w.found then
          { db := update_document_status env lockRes.2 document_id
              DocumentStatus.INDEXED none
            disp := Disposition.ack
            triggerCalls := 1, searchCalls := w.checks
            lockStoreCalls := 1, updateStoreCalls := 1 }
        else
          { db := update_document_status env lockRes.2 document_id
              DocumentStatus.FAILED
              (some "Indexing timeout: chunks not found after 2 minutes")
            disp := Disposition.deadLetter "IndexingTimeout"
              "Document chunks not found in index after maximum retries"
            triggerCalls := 1, searchCalls := w.checks
            lockStoreCalls := 1, updateStoreCalls := 1 }

/-! ### Concrete sample data for witnesses and counterexamples -/

/-- An environment in which no external call raises and the search index
never holds chunks. -/
def quietEnv : Env :=
  { lockDbRaises := false, now := 100, lockId := "lock-1"
    triggerRaises := false, searchRaises := fun _ => false
    chunks := fun _ => false, updateDbRaises := false, updateNow := 200 }

/-- As `quietEnv` but chunks are present from the first poll attempt. -/
def chunksEnv : Env := { quietEnv with chunks := fun _ => true }

/-- As `quietEnv` but the store session inside `try_acquire_lock` raises. -/
def lockFailEnv : Env := { quietEnv with lockDbRaises := true }

/-- Chunks are present, but the store session inside
`update_document_status` raises. -/
def updateFailEnv : Env :=
  { quietEnv with chunks := fun _ => true, updateDbRaises := true }

/-- Chunks are present, but every search call raises. -/
def searchErrEnv : Env :=
  { quietEnv with chunks := fun _ => true, searchRaises := fun _ => true }

/-- As `quietEnv` but the indexer trigger call raises. -/
def triggerFailEnv : Env := { quietEnv with triggerRaises := true }

/-- A sample document row. -/
def baseDoc : Doc :=
  { folder_id := 1, filename := "a.pdf", original_filename := "a.pdf"
    blob_url := "raw/a.pdf", processed_blob_url := none
    status := DocumentStatus.PENDING, file_size := some 10
    content_type := "application/pdf", doc_metadata := none
    error_message := none, processing_started_at := none
    processing_lock_id := none, created_at := 1, updated_at := 1 }

/-- A well-formed payload for document `n`. -/
def goodFields (n : Nat) : List (String × JVal) :=
  [("document_id", JVal.num n), ("blob_name", JVal.str "raw/a.pdf"),
   ("folder_id", JVal.num 1), ("user_id", JVal.num 1),
   ("timestamp", JVal.str "2025-11-18T00:00:00Z")]

/-! ### Store lemmas -/

/-- Writing a row back and reading it again yields the written row,
provided the key was present. -/
theorem dbFind_dbSet_self (db : DB) (id : JVal) (d0 doc : Doc)
    (h : dbFind db id = some d0) :
    dbFind (dbSet db id doc) id = some doc := by
  induction db with
  | nil => simp [dbFind] at h
  | cons p tl ih =>
    by_cases hp : p.1 == id
    · simp [dbFind, dbSet, hp]
    · simp only [dbFind, dbSet, hp, if_false, Bool.false_eq_true] at h ⊢
      exact ih h

/-! ### Poll-loop lemmas -/

/-- The loop performs at most one existence check per remaining attempt. -/
theorem wait_go_checks_le (env : Env) (maxR : Nat) (l : List Nat) :
    (wait_go env maxR l).checks ≤ l.length := by
  induction l with
  | nil => simp [wait_go]
  | cons a rest ih =>
    by_cases hc : check_chunks_exist env a
    · simp [wait_go, hc]
    · simp only [wait_go, hc, Bool.false_eq_true, if_false, List.length_cons]
      omega

/-- When every remaining check comes back negative, the loop performs all
remaining checks, sleeps between consecutive ones, and reports failure. -/
theorem wait_go_all_false (env : Env) (maxR : Nat) :
    ∀ k a, a + k = maxR + 1 →
      (∀ x, a ≤ x → x ≤ maxR → check_chunks_exist env x = false) →
      wait_go env maxR (List.range' a k) =
        { found := false, checks := k, sleeps := k - 1 } := by
  intro k
  induction k with
  | zero => intro a _ _; simp [wait_go, List.range']
  | succ m ih =>
    intro a ha hall
    have hca : check_chunks_exist env a = false := hall a le_rfl (by omega)
    rw [List.range'_succ]
    simp only [wait_go, hca, Bool.false_eq_true, if_false]
    rw [ih (a + 1) (by omega) (fun x hx1 hx2 => hall x (by omega) hx2)]
    rcases Nat.eq_zero_or_pos m with hm | hm
    · subst hm
      have hnl : ¬ a < maxR := by omega
      simp [hnl]
    · have hl : a < maxR := by omega
      simp only [hl, if_true, WaitResult.mk.injEq, true_and]
      omega

/-! ### Worker-operation lemmas -/

/-- A store exception inside `try_acquire_lock` is caught: false, store
unchanged. -/
theorem try_acquire_lock_raise (env : Env) (db : DB) (id : JVal)
    (hq : env.lockDbRaises = true) :
    try_acquire_lock env db id = (false, db) := by
  simp [try_acquire_lock, hq]

/-- Claiming a PENDING row commits the claimed form of the row. -/
theorem try_acquire_lock_pending (env : Env) (db : DB) (id : JVal)
    (doc : Doc) (hq : env.lockDbRaises = false)
    (hd : dbFind db id = some doc)
    (hs : doc.status = DocumentStatus.PENDING) :
    try_acquire_lock env db id = (true, dbSet db id (claimDoc env doc)) := by
  simp [try_acquire_lock, claimDoc, hq, hd, hs]

/-- A non-PENDING row is not claimed and the store is unchanged. -/
theorem try_acquire_lock_not_pending (env : Env) (db : DB) (id : JVal)
    (doc : Doc) (hd : dbFind db id = some doc)
    (hs : doc.status ≠ DocumentStatus.PENDING) :
    try_acquire_lock env db id = (false, db) := by
  by_cases hq : env.lockDbRaises
  · simp [try_acquire_lock, hq]
  · simp [try_acquire_lock, hq, hd, hs]

/-- Status update with a truthy error message rewrites status,
`updated_at` and `error_message`. -/
theorem update_document_status_found_truthy (env : Env) (db : DB)
    (id : JVal) (doc : Doc) (st : DocumentStatus) (em : Option String)
    (hu : env.updateDbRaises = false) (hd : dbFind db id = some doc)
    (he : pyTruthy em = true) :
    update_document_status env db id st em =
      dbSet db id
        { doc with status := st, updated_at := env.updateNow
                   error_message := em } := by
  simp [update_document_status, hu, hd, he]

/-- Status update with a falsy error message rewrites only status and
`updated_at`. -/
theorem update_document_status_found_falsy (env : Env) (db : DB)
    (id : JVal) (doc : Doc) (st : DocumentStatus) (em : Option String)
    (hu : env.updateDbRaises = false) (hd : dbFind db id = some doc)
    (he : pyTruthy em = false) :
    update_document_status env db id st em =
      dbSet db id { doc with status := st, updated_at := env.updateNow } := by
  simp [update_document_status, hu, hd, he]

/-- A store exception inside `update_document_status` is caught: the store
is unchanged and the call still returns normally. -/
theorem update_document_status_raise (env : Env) (db : DB) (id : JVal)
    (st : DocumentStatus) (em : Option String)
    (hu : env.updateDbRaises = true) :
    update_document_status env db id st em = db := by
  simp [update_document_status, hu]

/-- The full poll fails when every check up to `max_retries` is negative. -/
theorem wait_for_indexing_all_false (env : Env)
    (hall : ∀ k, 1 ≤ k → k ≤ max_retries → check_chunks_exist env k = false) :
    wait_for_indexing env =
      { found := false, checks := max_retries, sleeps := max_retries - 1 } := by
  simpa [wait_for_indexing, wait_for_indexing_upto] using
    wait_go_all_false env max_retries max_retries 1 (by omega) hall

/-- The full poll succeeds after one check when the first check is
positive. -/
theorem wait_for_indexing_first_true (env : Env)
    (hc : check_chunks_exist env 1 = true) :
    wait_for_indexing env = { found := true, checks := 1, sleeps := 0 } := by
  have h12 : List.range' 1 max_retries = 1 :: List.range' 2 11 := rfl
  rw [wait_for_indexing, wait_for_indexing_upto, h12]
  simp [wait_go, hc]

/-! ### Claim theorems -/

/-- C5: `try_acquire(document_id)` returns false when the document row
does not exist and when its status is not PENDING, leaving the store
unchanged in those cases; when the status is PENDING it sets the status to
PROCESSING, stamps `processing_started_at` with the current time, stores
the freshly generated `processing_lock_id`, commits, and returns true. -/
theorem C5_try_acquire_contract (env : Env) (db : DB) (id : JVal)
    (hq : env.lockDbRaises = false) :
    (dbFind db id = none → try_acquire_lock env db id = (false, db)) ∧
    (∀ doc : Doc, dbFind db id = some doc →
      doc.status ≠ DocumentStatus.PENDING →
      try_acquire_lock env db id = (false, db)) ∧
    (∀ doc : Doc, dbFind db id = some doc →
      doc.status = DocumentStatus.PENDING →
      try_acquire_lock env db id =
        (true, dbSet db id
          { doc with
              status := DocumentStatus.PROCESSING
              processing_started_at := some env.now
              processing_lock_id := some env.lockId })) := by
  refine ⟨fun h => ?_, fun doc h hs => ?_, fun doc h hs => ?_⟩
  · simp [try_acquire_lock, hq, h]
  · simp [try_acquire_lock, hq, h, hs]
  · simp [try_acquire_lock, hq, h, hs]

/-- Witness for C5: claiming a PENDING document succeeds and stamps the
lock fields. -/
theorem C5_try_acquire_contract_witness :
    try_acquire_lock quietEnv [(JVal.num 7, baseDoc)] (JVal.num 7) =
      (true, dbSet [(JVal.num 7, baseDoc)] (JVal.num 7)
        { baseDoc with
            status := DocumentStatus.PROCESSING
            processing_started_at := some quietEnv.now
            processing_lock_id := some quietEnv.lockId }) :=
  (C5_try_acquire_contract quietEnv [(JVal.num 7, baseDoc)] (JVal.num 7)
      rfl).2.2 baseDoc (by decide) (by decide)

/-- C6: the completion poll performs the existence check at most
`max_attempts` times; it returns found immediately after a single check
when the first check is positive (zero sleeps); and when every check is
negative it returns not-found after exactly `max_attempts` checks with a
constant-delay sleep between each pair of consecutive attempts
(`max_attempts - 1` sleeps of `retry_delay` seconds). -/
theorem C6_wait_for_artifacts (env : Env) (maxR : Nat) (h1 : 1 ≤ maxR) :
    (wait_for_indexing_upto env maxR).checks ≤ maxR ∧
    (check_chunks_exist env 1 = true →
      wait_for_indexing_upto env maxR =
        { found := true, checks := 1, sleeps := 0 }) ∧
    ((∀ k, 1 ≤ k → k ≤ maxR → check_chunks_exist env k = false) →
      wait_for_indexing_upto env maxR =
        { found := false, checks := maxR, sleeps := maxR - 1 }) := by
  refine ⟨?_, fun hc => ?_, fun hall => ?_⟩
  · have h := wait_go_checks_le env maxR (List.range' 1 maxR)
    simpa [wait_for_indexing_upto, List.length_range'] using h
  · rcases maxR with _ | m
    · omega
    · rw [wait_for_indexing_upto, List.range'_succ]
      simp [wait_go, hc]
  · exact wait_go_all_false env maxR maxR 1 (by omega)
      (fun x hx1 hx2 => hall x hx1 hx2)

/-- Witness for C6 at the worker's configured ceiling of 12 attempts:
chunks present from the start → one check, no sleep; chunks never present
→ 12 checks, 11 sleeps, not found. -/
theorem C6_wait_for_artifacts_witness :
    (wait_for_indexing_upto quietEnv 12).checks ≤ 12 ∧
    wait_for_indexing_upto chunksEnv 12 =
      { found := true, checks := 1, sleeps := 0 } ∧
    wait_for_indexing_upto quietEnv 12 =
      { found := false, checks := 12, sleeps := 11 } :=
  ⟨(C6_wait_for_artifacts quietEnv 12 (by norm_num)).1,
   (C6_wait_for_artifacts chunksEnv 12 (by norm_num)).2.1 rfl,
   (C6_wait_for_artifacts quietEnv 12 (by norm_num)).2.2 (fun _ _ _ => rfl)⟩

/-- C9: `try_acquire_lock` never raises — when the store session inside it
raises, the exception is caught and the call returns false with the store
unchanged; consequently the dispatcher treats the document as not its
responsibility and acknowledges the message. -/
theorem C9_lock_catches_exceptions (env : Env) (db : DB)
    (fields : List (String × JVal)) (id b f u : JVal)
    (hp : parse_fields fields = some (id, b, f, u))
    (hq : env.lockDbRaises = true) :
    try_acquire_lock env db id = (false, db) ∧
    process_message env db (Msg.obj fields) =
      { db := db, disp := Disposition.ack, triggerCalls := 0
        searchCalls := 0, lockStoreCalls := 1, updateStoreCalls := 0 } := by
  have hl : try_acquire_lock env db id = (false, db) := by
    simp [try_acquire_lock, hq]
  exact ⟨hl, by simp [process_message, hp, hl]⟩

/-- Witness for C9: a store exception during the claim for document 7
yields a false claim and an acknowledged message. -/
theorem C9_lock_catches_exceptions_witness :
    try_acquire_lock lockFailEnv [(JVal.num 7, baseDoc)] (JVal.num 7) =
      (false, [(JVal.num 7, baseDoc)]) ∧
    process_message lockFailEnv [(JVal.num 7, baseDoc)]
        (Msg.obj (goodFields 7)) =
      { db := [(JVal.num 7, baseDoc)], disp := Disposition.ack
        triggerCalls := 0, searchCalls := 0, lockStoreCalls := 1
        updateStoreCalls := 0 } :=
  C9_lock_catches_exceptions lockFailEnv [(JVal.num 7, baseDoc)]
    (goodFields 7) (JVal.num 7) (JVal.str "raw/a.pdf") (JVal.num 1)
    (JVal.num 1) (by decide) rfl

/-- C7: for a delivered event whose document exists with status
PROCESSING, INDEXED or FAILED, processing is a no-op on the document: the
claim returns false, the store is unchanged (every field of every row), no
indexer trigger and no poll is made, and the message is acknowledged. -/
theorem C7_redelivery_noop (env : Env) (db : DB)
    (fields : List (String × JVal)) (did b f u : JVal) (doc : Doc)
    (hp : parse_fields fields = some (did, b, f, u))
    (hd : dbFind db did = some doc)
    (hs : doc.status = DocumentStatus.PROCESSING ∨
          doc.status = DocumentStatus.INDEXED ∨
          doc.status = DocumentStatus.FAILED) :
    try_acquire_lock env db did = (false, db) ∧
    process_message env db (Msg.obj fields) =
      { db := db, disp := Disposition.ack, triggerCalls := 0
        searchCalls := 0, lockStoreCalls := 1, updateStoreCalls := 0 } := by
  have hns : doc.status ≠ DocumentStatus.PENDING := by
    rcases hs with h | h | h <;> simp [h]
  have hl : try_acquire_lock env db did = (false, db) :=
    try_acquire_lock_not_pending env db did doc hd hns
  exact ⟨hl, by simp [process_message, hp, hl]⟩

/-- Witness for C7: redelivery for document 9, already INDEXED, is
acknowledged with the store untouched and no external calls. -/
theorem C7_redelivery_noop_witness :
    try_acquire_lock quietEnv
        [(JVal.num 9, { baseDoc with status := DocumentStatus.INDEXED })]
        (JVal.num 9) =
      (false, [(JVal.num 9, { baseDoc with status := DocumentStatus.INDEXED })]) ∧
    process_message quietEnv
        [(JVal.num 9, { baseDoc with status := DocumentStatus.INDEXED })]
        (Msg.obj (goodFields 9)) =
      { db := [(JVal.num 9, { baseDoc with status := DocumentStatus.INDEXED })]
        disp := Disposition.ack, triggerCalls := 0, searchCalls := 0
        lockStoreCalls := 1, updateStoreCalls := 0 } :=
  C7_redelivery_noop quietEnv
    [(JVal.num 9, { baseDoc with status := DocumentStatus.INDEXED })]
    (goodFields 9) (JVal.num 9) (JVal.str "raw/a.pdf") (JVal.num 1)
    (JVal.num 1) { baseDoc with status := DocumentStatus.INDEXED }
    (by decide) (by decide) (Or.inr (Or.inl rfl))

/-- C2: when the document is claimed and the completion poll exhausts all
`max_retries` existence checks without a positive result, the worker
persists status FAILED with the timeout error message and dead-letters the
message with the IndexingTimeout reason; in particular the message is
neither acknowledged nor abandoned. -/
theorem C2_timeout_dead_letter (env : Env) (db : DB)
    (fields : List (String × JVal)) (did b f u : JVal) (doc : Doc)
    (hp : parse_fields fields = some (did, b, f, u))
    (hq : env.lockDbRaises = false)
    (hd : dbFind db did = some doc)
    (hs : doc.status = DocumentStatus.PENDING)
    (ht : env.triggerRaises = false)
    (hall : ∀ k, 1 ≤ k → k ≤ max_retries → check_chunks_exist env k = false)
    (hu : env.updateDbRaises = false) :
    (process_message env db (Msg.obj fields)).disp =
      Disposition.deadLetter "IndexingTimeout"
        "Document chunks not found in index after maximum retries" ∧
    dbFind (process_message env db (Msg.obj fields)).db did =
      some { doc with
        status := DocumentStatus.FAILED
        error_message := some "Indexing timeout: chunks not found after 2 minutes"
        processing_started_at := some env.now
        processing_lock_id := some env.lockId
        updated_at := env.updateNow } := by
  have hl := try_acquire_lock_pending env db did doc hq hd hs
  have hw := wait_for_indexing_all_false env hall
  have hd1 : dbFind (dbSet db did (claimDoc env doc)) did =
      some (claimDoc env doc) :=
    dbFind_dbSet_self db did doc _ hd
  have hupd := update_document_status_found_truthy env
    (dbSet db did (claimDoc env doc)) did (claimDoc env doc)
    DocumentStatus.FAILED
    (some "Indexing timeout: chunks not found after 2 minutes") hu hd1 rfl
  constructor
  · simp [process_message, hp, hl, ht, hw]
  · simp only [process_message, hp, hl]
    simp only [Bool.not_true, Bool.false_eq_true, if_false, ht, hw]
    rw [hupd]
    rw [dbFind_dbSet_self _ _ _ _ hd1]
    rfl

/-- Witness for C2: document 8 is PENDING, chunks never appear → FAILED
with the timeout message, message dead-lettered. -/
theorem C2_timeout_dead_letter_witness :
    (process_message quietEnv [(JVal.num 8, baseDoc)]
        (Msg.obj (goodFields 8))).disp =
      Disposition.deadLetter "IndexingTimeout"
        "Document chunks not found in index after maximum retries" ∧
    dbFind (process_message quietEnv [(JVal.num 8, baseDoc)]
        (Msg.obj (goodFields 8))).db (JVal.num 8) =
      some { baseDoc with
        status := DocumentStatus.FAILED
        error_message := some "Indexing timeout: chunks not found after 2 minutes"
        processing_started_at := some quietEnv.now
        processing_lock_id := some quietEnv.lockId
        updated_at := quietEnv.updateNow } :=
  C2_timeout_dead_letter quietEnv [(JVal.num 8, baseDoc)] (goodFields 8)
    (JVal.num 8) (JVal.str "raw/a.pdf") (JVal.num 1) (JVal.num 1) baseDoc
    (by decide) rfl (by decide) rfl rfl (fun _ _ _ => rfl) rfl

/-- C10: `update_document_status` with `error_message` None or the empty
string (both falsy under `if error_message:`) rewrites only `status` and
`updated_at`; every other field — in particular a pre-existing
`error_message` — is left unchanged. -/
theorem C10_falsy_error_message_frame (env : Env) (db : DB) (id : JVal)
    (doc : Doc) (st : DocumentStatus) (em : Option String)
    (hu : env.updateDbRaises = false)
    (hd : dbFind db id = some doc)
    (hem : em = none ∨ em = some "") :
    update_document_status env db id st em =
      dbSet db id { doc with status := st, updated_at := env.updateNow } ∧
    dbFind (update_document_status env db id st em) id =
      some { doc with status := st, updated_at := env.updateNow } ∧
    (dbFind (update_document_status env db id st em) id).map
        Doc.error_message = some doc.error_message := by
  have he : pyTruthy em = false := by
    rcases hem with h | h <;> simp [h, pyTruthy]
  have h1 := update_document_status_found_falsy env db id doc st em hu hd he
  have h2 : dbFind (update_document_status env db id st em) id =
      some { doc with status := st, updated_at := env.updateNow } := by
    rw [h1]; exact dbFind_dbSet_self db id doc _ hd
  exact ⟨h1, h2, by rw [h2]; rfl⟩

/-- Witness for C10: a success-style update (`error_message = None`) on a
document carrying an old failure message keeps that message intact. -/
theorem C10_falsy_error_message_frame_witness :
    update_document_status quietEnv
        [(JVal.num 7, { baseDoc with error_message := some "old failure" })]
        (JVal.num 7) DocumentStatus.INDEXED none =
      dbSet [(JVal.num 7, { baseDoc with error_message := some "old failure" })]
        (JVal.num 7)
        { { baseDoc with error_message := some "old failure" } with
            status := DocumentStatus.INDEXED
            updated_at := quietEnv.updateNow } ∧
    dbFind (update_document_status quietEnv
        [(JVal.num 7, { baseDoc with error_message := some "old failure" })]
        (JVal.num 7) DocumentStatus.INDEXED none) (JVal.num 7) =
      some { { baseDoc with error_message := some "old failure" } with
          status := DocumentStatus.INDEXED
          updated_at := quietEnv.updateNow } ∧
    (dbFind (update_document_status quietEnv
        [(JVal.num 7, { baseDoc with error_message := some "old failure" })]
        (JVal.num 7) DocumentStatus.INDEXED none) (JVal.num 7)).map
        Doc.error_message =
      some ({ baseDoc with error_message := some "old failure" } : Doc).error_message :=
  C10_falsy_error_message_frame quietEnv
    [(JVal.num 7, { baseDoc with error_message := some "old failure" })]
    (JVal.num 7) { baseDoc with error_message := some "old failure" }
    DocumentStatus.INDEXED none rfl (by decide) (Or.inl rfl)

/-- C1 counterexample: two exceptions the claim covers do not lead to
abandonment.  A store exception during the claim is caught inside
`try_acquire_lock`, so the message is acknowledged; an error from every
artifact existence check is caught inside `check_chunks_exist` and counted
as a negative check, so the message is dead-lettered and the document is
driven to FAILED rather than left unchanged. -/
theorem C1_exception_counterexample :
    (process_message lockFailEnv [(JVal.num 7, baseDoc)]
        (Msg.obj (goodFields 7))).disp = Disposition.ack ∧
    (process_message lockFailEnv [(JVal.num 7, baseDoc)]
        (Msg.obj (goodFields 7))).disp ≠ Disposition.abandoned ∧
    (process_message searchErrEnv [(JVal.num 7, baseDoc)]
        (Msg.obj (goodFields 7))).disp =
      Disposition.deadLetter "IndexingTimeout"
        "Document chunks not found in index after maximum retries" ∧
    (dbFind (process_message searchErrEnv [(JVal.num 7, baseDoc)]
        (Msg.obj (goodFields 7))).db (JVal.num 7)).map Doc.status =
      some DocumentStatus.FAILED := by
  decide

/-- C1 amended: an exception that reaches the dispatcher's handler — such
as one raised by the indexer trigger — abandons the message and leaves the
document non-terminal (PROCESSING, as committed by the claim); but a store
exception during the claim is caught inside `try_acquire_lock` and results
in acknowledgment with the store unchanged, and an existence-check error
is caught inside `check_chunks_exist` as a negative check. -/
theorem C1_abandon_amended (env : Env) (db : DB)
    (fields : List (String × JVal)) (did b f u : JVal) (doc : Doc)
    (hp : parse_fields fields = some (did, b, f, u)) :
    (env.lockDbRaises = false → dbFind db did = some doc →
      doc.status = DocumentStatus.PENDING → env.triggerRaises = true →
      process_message env db (Msg.obj fields) =
        { db := dbSet db did (claimDoc env doc)
          disp := Disposition.abandoned, triggerCalls := 1
          searchCalls := 0, lockStoreCalls := 1, updateStoreCalls := 0 }) ∧
    (env.lockDbRaises = true →
      process_message env db (Msg.obj fields) =
        { db := db, disp := Disposition.ack, triggerCalls := 0
          searchCalls := 0, lockStoreCalls := 1, updateStoreCalls := 0 }) := by
  constructor
  · intro hq hd hs ht
    have hl := try_acquire_lock_pending env db did doc hq hd hs
    simp [process_message, hp, hl, ht]
  · intro hq
    have hl := try_acquire_lock_raise env db did hq
    simp [process_message, hp, hl]

/-- Witness for the amended C1: a trigger exception for document 10
abandons the message with the document claimed but non-terminal; a claim
store exception acknowledges with the store untouched. -/
theorem C1_abandon_amended_witness :
    process_message triggerFailEnv [(JVal.num 10, baseDoc)]
        (Msg.obj (goodFields 10)) =
      { db := dbSet [(JVal.num 10, baseDoc)] (JVal.num 10)
          (claimDoc triggerFailEnv baseDoc)
        disp := Disposition.abandoned, triggerCalls := 1, searchCalls := 0
        lockStoreCalls := 1, updateStoreCalls := 0 } ∧
    process_message lockFailEnv [(JVal.num 10, baseDoc)]
        (Msg.obj (goodFields 10)) =
      { db := [(JVal.num 10, baseDoc)], disp := Disposition.ack
        triggerCalls := 0, searchCalls := 0, lockStoreCalls := 1
        updateStoreCalls := 0 } :=
  ⟨(C1_abandon_amended triggerFailEnv [(JVal.num 10, baseDoc)]
      (goodFields 10) (JVal.num 10) (JVal.str "raw/a.pdf") (JVal.num 1)
      (JVal.num 1) baseDoc (by decide)).1 rfl (by decide) rfl rfl,
   (C1_abandon_amended lockFailEnv [(JVal.num 10, baseDoc)]
      (goodFields 10) (JVal.num 10) (JVal.str "raw/a.pdf") (JVal.num 1)
      (JVal.num 1) baseDoc (by decide)).2 rfl⟩

/-- C3 counterexample: when the store session inside
`update_document_status` raises, the terminal status is not persisted, the
call returns normally signalling nothing, and the dispatcher still
acknowledges the message — the persistence failure does not propagate and
the document stays PROCESSING. -/
theorem C3_persistence_counterexample :
    update_document_status updateFailEnv
        [(JVal.num 7, claimDoc updateFailEnv baseDoc)] (JVal.num 7)
        DocumentStatus.INDEXED none =
      [(JVal.num 7, claimDoc updateFailEnv baseDoc)] ∧
    (process_message updateFailEnv [(JVal.num 7, baseDoc)]
        (Msg.obj (goodFields 7))).disp = Disposition.ack ∧
    (dbFind (process_message updateFailEnv [(JVal.num 7, baseDoc)]
        (Msg.obj (goodFields 7))).db (JVal.num 7)).map Doc.status =
      some DocumentStatus.PROCESSING := by
  decide

/-- C3 amended: `update_document_status` reports nothing to its caller —
every store exception is caught and logged inside it, leaving the store
unchanged — so a persistence failure never propagates, and the dispatcher
acknowledges the message even though the terminal status was not
persisted. -/
theorem C3_persistence_swallowed_amended (env : Env) (db : DB)
    (fields : List (String × JVal)) (did b f u : JVal) (doc : Doc)
    (st : DocumentStatus) (em : Option String)
    (hu : env.updateDbRaises = true) :
    update_document_status env db did st em = db ∧
    (parse_fields fields = some (did, b, f, u) →
      env.lockDbRaises = false → dbFind db did = some doc →
      doc.status = DocumentStatus.PENDING → env.triggerRaises = false →
      check_chunks_exist env 1 = true →
      process_message env db (Msg.obj fields) =
        { db := dbSet db did (claimDoc env doc), disp := Disposition.ack
          triggerCalls := 1, searchCalls := 1, lockStoreCalls := 1
          updateStoreCalls := 1 }) := by
  refine ⟨update_document_status_raise env db did st em hu, ?_⟩
  intro hp hq hd hs ht hc
  have hl := try_acquire_lock_pending env db did doc hq hd hs
  have hw := wait_for_indexing_first_true env hc
  have hup := update_document_status_raise env
    (dbSet db did (claimDoc env doc)) did DocumentStatus.INDEXED none hu
  simp [process_message, hp, hl, ht, hw, hup]

/-- Witness for the amended C3: with chunks found on the first attempt but
a failing status write, document 7 ends PROCESSING and the message is
acknowledged. -/
theorem C3_persistence_swallowed_amended_witness :
    update_document_status updateFailEnv [(JVal.num 7, baseDoc)]
        (JVal.num 7) DocumentStatus.INDEXED none =
      [(JVal.num 7, baseDoc)] ∧
    process_message updateFailEnv [(JVal.num 7, baseDoc)]
        (Msg.obj (goodFields 7)) =
      { db := dbSet [(JVal.num 7, baseDoc)] (JVal.num 7)
          (claimDoc updateFailEnv baseDoc)
        disp := Disposition.ack, triggerCalls := 1, searchCalls := 1
        lockStoreCalls := 1, updateStoreCalls := 1 } := by
  have h := C3_persistence_swallowed_amended updateFailEnv
    [(JVal.num 7, baseDoc)] (goodFields 7) (JVal.num 7)
    (JVal.str "raw/a.pdf") (JVal.num 1) (JVal.num 1) baseDoc
    DocumentStatus.INDEXED none rfl
  exact ⟨h.1, h.2 (by decide) rfl (by decide) rfl rfl rfl⟩

/-- C4 counterexample: resolving a success for a document that carries a
previously stored `error_message` sets status INDEXED but leaves the old
message in place — `error_message` is not cleared. -/
theorem C4_clear_counterexample :
    (dbFind (update_document_status quietEnv
        [(JVal.num 7,
          { claimDoc quietEnv baseDoc with
              error_message := some "previous failure" })]
        (JVal.num 7) DocumentStatus.INDEXED none) (JVal.num 7)).map
      Doc.status = some DocumentStatus.INDEXED ∧
    (dbFind (update_document_status quietEnv
        [(JVal.num 7,
          { claimDoc quietEnv baseDoc with
              error_message := some "previous failure" })]
        (JVal.num 7) DocumentStatus.INDEXED none) (JVal.num 7)).map
      Doc.error_message = some (some "previous failure") ∧
    (dbFind (update_document_status quietEnv
        [(JVal.num 7,
          { claimDoc quietEnv baseDoc with
              error_message := some "previous failure" })]
        (JVal.num 7) DocumentStatus.INDEXED none) (JVal.num 7)).map
      Doc.error_message ≠ some none := by
  decide

/-- C4 amended: on a success resolution the resolver sets status INDEXED
and refreshes `updated_at` but does not clear `error_message` — the
`if error_message:` guard skips the assignment for None — so any
previously stored message survives. -/
theorem C4_success_sets_indexed_amended (env : Env) (db : DB) (id : JVal)
    (doc : Doc) (hu : env.updateDbRaises = false)
    (hd : dbFind db id = some doc) :
    update_document_status env db id DocumentStatus.INDEXED none =
      dbSet db id
        { doc with status := DocumentStatus.INDEXED
                   updated_at := env.updateNow } ∧
    (dbFind (update_document_status env db id DocumentStatus.INDEXED none)
        id).map Doc.error_message = some doc.error_message := by
  have h1 := update_document_status_found_falsy env db id doc
    DocumentStatus.INDEXED none hu hd rfl
  refine ⟨h1, ?_⟩
  rw [h1, dbFind_dbSet_self db id doc _ hd]
  rfl

/-- Witness for the amended C4: success resolution for document 11 keeps
its stored failure message while setting status INDEXED. -/
theorem C4_success_sets_indexed_amended_witness :
    update_document_status quietEnv
        [(JVal.num 11, { baseDoc with error_message := some "boom" })]
        (JVal.num 11) DocumentStatus.INDEXED none =
      dbSet [(JVal.num 11, { baseDoc with error_message := some "boom" })]
        (JVal.num 11)
        { { baseDoc with error_message := some "boom" } with
            status := DocumentStatus.INDEXED
            updated_at := quietEnv.updateNow } ∧
    (dbFind (update_document_status quietEnv
        [(JVal.num 11, { baseDoc with error_message := some "boom" })]
        (JVal.num 11) DocumentStatus.INDEXED none) (JVal.num 11)).map
      Doc.error_message =
      some ({ baseDoc with error_message := some "boom" } : Doc).error_message :=
  C4_success_sets_indexed_amended quietEnv
    [(JVal.num 11, { baseDoc with error_message := some "boom" })]
    (JVal.num 11) { baseDoc with error_message := some "boom" } rfl
    (by decide)

/-- C8: a payload that is not valid JSON leaves `data` unbound, so the
`except` block's log line raises `NameError` before `abandon_message`
runs — the message gets no disposition at all (though no store or external
call is made and the dispatch loop survives); only a payload that parses
to an object but misses a required field is actually abandoned. -/
theorem C8_malformed_disposition :
    process_message quietEnv [(JVal.num 7, baseDoc)] Msg.notJson =
      { db := [(JVal.num 7, baseDoc)], disp := Disposition.unhandled
        triggerCalls := 0, searchCalls := 0, lockStoreCalls := 0
        updateStoreCalls := 0 } ∧
    (process_message quietEnv [(JVal.num 7, baseDoc)] Msg.notJson).disp ≠
      Disposition.abandoned ∧
    process_message quietEnv [(JVal.num 7, baseDoc)]
        (Msg.obj [("blob_name", JVal.str "raw/a.pdf")]) =
      { db := [(JVal.num 7, baseDoc)], disp := Disposition.abandoned
        triggerCalls := 0, searchCalls := 0, lockStoreCalls := 0
        updateStoreCalls := 0 } := by
  decide

end IndexWorker
